import Mathlib

/-!
Verification development for the farm-assistant query pipeline.

Shallow embedding of the repository's core:
- `backend/utils/trendAnalysis.js` (regression slope, direction, percent change),
- `HourlyData.getTrends` from the sensor-history model (endpoint-comparison trends),
- the memory service's `buildEnrichedContext` / `_filterTrends` (query-type scoped
  context bundles),
- the `FarmProfile` model's `addSuccessfulAction` (response-rate learning),
- the AI service's LangGraph orchestration (`_buildGraph` edges and the seven
  node functions), with external LLM/storage calls abstracted into an `Oracle`
  of call results, so that routing, the bounded retry loop, and error
  propagation can be proved over all call outcomes.

JavaScript numbers are modelled as `ℚ`; a JS value that can be `null` is an
`Option`; a call that can throw is an `Except String` result supplied by the
oracle. JS `toFixed(2)` is modelled as exact rounding of the rational to
hundredths (ties away from minus infinity, as ECMAScript picks the larger
candidate).
-/

namespace Farm

/-- Discriminates a successful call result from a thrown one. -/
def isOk {ε α : Type} : Except ε α → Bool
  | Except.ok _ => true
  | Except.error _ => false

/-- Model of JS `x.toFixed(2)` on an exact rational: round `x` to the nearest
hundredth, ties toward the larger value (the ECMAScript rule picks the larger
integer `n` when two are equally near). -/
def toFixed2 (x : ℚ) : ℚ := (⌊x * 100 + 1 / 2⌋ : ℚ) / 100

/-! ## backend/utils/trendAnalysis.js -/

/-- Trend direction tags used throughout the analytics. -/
inductive Direction where
  | increasing
  | decreasing
  | stable
  deriving DecidableEq, Repr

/-- Embeds `calculateSlope(data, field)`: ordinary least-squares slope of the
field values against the sample index. The JS `data.map(d => d[field])`
projection is applied by the caller, so the input here is already the value
series. Returns 0 for fewer than 2 samples, and 0 when the denominator is 0
(the JS `denominator === 0 ? 0 : numerator / denominator` guard). -/
def calculateSlope (values : List ℚ) : ℚ :=
  let n := values.length
  if n < 2 then 0
  else
    let xMean : ℚ := ((n : ℚ) - 1) / 2
    let yMean : ℚ := values.sum / (n : ℚ)
    let numerator := (values.enum.map (fun iy => ((iy.1 : ℚ) - xMean) * (iy.2 - yMean))).sum
    let denominator := (values.enum.map (fun iy => ((iy.1 : ℚ) - xMean) ^ 2)).sum
    if denominator = 0 then 0 else numerator / denominator

/-- Embeds `getTrendDirection(slope, threshold)` (JS default threshold 0.01):
`increasing` when the slope exceeds the threshold, `decreasing` when it is
below its negation, `stable` otherwise. -/
def getTrendDirection (slope threshold : ℚ) : Direction :=
  if threshold < slope then Direction.increasing
  else if slope < -threshold then Direction.decreasing
  else Direction.stable

/-- Embeds `calculatePercentageChange(start, end)`. The JS function returns the
number 0 when `start` is 0 and otherwise the string
`((end - start) / start * 100).toFixed(2)`; both are modelled as the rational
value they denote. The second JS parameter is named `end`, a Lean keyword, so
it is called `endValue` here. -/
def calculatePercentageChange (start endValue : ℚ) : ℚ :=
  if start = 0 then 0 else toFixed2 ((endValue - start) / start * 100)

/-! ## HourlyData.getTrends (models/SensorHistory.js) -/

/-- Per-metric trend record produced by `HourlyData.getTrends`'s inner
`calculateTrend`. `changePercent` is `none` when the start-of-window value is
0: the JS division then yields a non-finite number (`Infinity`/`NaN`), which
`toFixed` renders as a non-numeric string — there is no zero guard. -/
structure TrendRecord where
  current : ℚ
  start : ℚ
  change : ℚ
  changePercent : Option ℚ
  direction : Direction
  deriving DecidableEq, Repr

/-- One hourly aggregate row (the fields `getTrends` reads, plus humidity,
which the schema stores but `getTrends` never trends). -/
structure HourlyRecord where
  avgMoisture : ℚ
  avgPh : ℚ
  avgNitrogen : ℚ
  avgPhosphorus : ℚ
  avgPotassium : ℚ
  avgTemperature : ℚ
  avgHumidity : ℚ
  deriving DecidableEq, Repr

/-- Embeds the inner `calculateTrend(field)` of `HourlyData.getTrends`: pure
endpoint comparison of the first and last values of the window (the callers
guarantee at least 2 values; `headD`/`getLastD` defaults are never reached
there). No regression slope is computed. -/
def calculateTrend (values : List ℚ) : TrendRecord :=
  let first := values.headD 0
  let last := values.getLastD 0
  { current := last
    start := first
    change := last - first
    changePercent := if first = 0 then none else some (toFixed2 ((last - first) / first * 100))
    direction :=
      if first < last then Direction.increasing
      else if last < first then Direction.decreasing
      else Direction.stable }

/-- Embeds `HourlyData.getTrends(userId, days)`. The Mongo window query
(`hour ≥ startDate`, sorted ascending) is modelled by taking the
already-filtered, time-ordered rows as input. Returns `null` (`none`) when
fewer than 2 rows exist in the window; otherwise an object with one
`TrendRecord` per metric, modelled as an association list in the JS key
order. Note there is no humidity trend. -/
def getTrends (data : List HourlyRecord) : Option (List (String × TrendRecord)) :=
  if data.length < 2 then none
  else
    some [("moisture", calculateTrend (data.map (·.avgMoisture))),
          ("ph", calculateTrend (data.map (·.avgPh))),
          ("nitrogen", calculateTrend (data.map (·.avgNitrogen))),
          ("phosphorus", calculateTrend (data.map (·.avgPhosphorus))),
          ("potassium", calculateTrend (data.map (·.avgPotassium))),
          ("temperature", calculateTrend (data.map (·.avgTemperature)))]

/-! ## String helpers (JS `includes` / `toLowerCase` / `trim` over char lists) -/

/-- JS whitespace as it appears in this code base (`\s` and `trim`): space,
tab, newline, carriage return. -/
def isSpaceChar (c : Char) : Bool := c == ' ' || c == '\t' || c == '\n' || c == '\r'

/-- Whether `p` is an initial segment of `s`. -/
def startsWithChars : List Char → List Char → Bool
  | [], _ => true
  | _ :: _, [] => false
  | p :: ps, c :: cs => p == c && startsWithChars ps cs

/-- JS `hay.includes(pat)`: `pat` occurs contiguously in `hay`. -/
def strIncludes : List Char → List Char → Bool
  | [], pat => startsWithChars pat []
  | c :: cs, pat => startsWithChars pat (c :: cs) || strIncludes cs pat

/-- JS `toLowerCase` over the characters that occur here (ASCII). -/
def lowerChars (cs : List Char) : List Char := cs.map Char.toLower

/-- JS `trim`: strip leading and trailing whitespace. -/
def trimChars (cs : List Char) : List Char :=
  ((cs.dropWhile isSpaceChar).reverse.dropWhile isSpaceChar).reverse

/-! ## Data model shared by the memory service and the pipeline -/

/-- Current sensor snapshot supplied with each query (`currentSensors`). -/
structure SensorSnapshot where
  moisture : ℚ
  ph : ℚ
  nitrogen : ℚ
  phosphorus : ℚ
  potassium : ℚ
  temperature : ℚ
  humidity : ℚ
  crop : String
  motorStatus : Bool
  manualMode : Bool
  deriving DecidableEq, Repr

/-- One formatted past conversation, as produced by
`memoryService.getRecentConversations`. `wasSuccessful` is tri-state in JS
(true / false / undefined). The JS `date`/`daysAgo` timestamps are plain
numbers here. -/
structure ConvSummary where
  date : Nat
  daysAgo : Nat
  query : String
  queryType : String
  aiResponse : String
  userAction : Option String
  wasSuccessful : Option Bool
  feedback : Option String
  deriving DecidableEq, Repr

/-- One formatted similar past query (`memoryService.getSimilarQueries`). -/
structure SimilarQuery where
  date : Nat
  daysAgo : Nat
  query : String
  aiResponse : String
  wasSuccessful : Option Bool
  recommendations : List String
  deriving DecidableEq, Repr

/-- Farmer behavioural profile view returned by
`memoryService.getFarmerProfile` (the fields consumed downstream). -/
structure FarmerProfileView where
  currentCropName : String
  topIssues : List String
  responseRate : ℚ
  preferredMethods : List String
  deriving DecidableEq, Repr

/-- Irrigation summary (`memoryService.getIrrigationHistory`). -/
structure IrrigationSummary where
  totalEvents : Nat
  totalMinutes : ℚ
  avgDuration : ℚ
  commonTimes : List String
  pattern : String
  deriving DecidableEq, Repr

/-- One detected anomaly (`memoryService.detectAnomalies`). -/
structure Anomaly where
  type : String
  severity : String
  message : String
  current : ℚ
  deriving DecidableEq, Repr

/-- Diagnostic metadata attached to the bundle (`contextStats`). -/
structure ContextStats where
  conversationsFound : Nat
  trendsIncluded : List String
  contextType : String
  estimatedTokens : Nat
  deriving DecidableEq, Repr

/-- The enriched context bundle built once per query
(`buildEnrichedContext`'s return value). Trends are an association list from
metric name to record, mirroring the JS object. -/
structure EnrichedContext where
  query : String
  queryType : String
  currentSensors : SensorSnapshot
  trends : Option (List (String × TrendRecord))
  pastConversations : List ConvSummary
  similarQueries : List SimilarQuery
  farmerProfile : Option FarmerProfileView
  irrigationHistory : Option IrrigationSummary
  anomalies : List Anomaly
  contextStats : ContextStats
  deriving DecidableEq, Repr

/-! ## memoryService.buildEnrichedContext -/

/-- One row of the `contextNeeds` lookup table: which trend metrics matter,
the trend window, how many conversations, and the three include flags. -/
structure ContextProfile where
  trends : List String
  trendDays : Nat
  conversations : Nat
  includeIrrigation : Bool
  includeProfile : Bool
  includeAnomalies : Bool
  deriving DecidableEq, Repr

/-- Embeds the `contextNeeds` table plus the
`contextNeeds[queryType] || contextNeeds.general` fallback: a query type that
is not a key of the table gets the `general` profile. -/
def contextNeeds (queryType : String) : ContextProfile :=
  if queryType = "watering" then
    { trends := ["moisture", "temperature", "humidity"], trendDays := 7, conversations := 3,
      includeIrrigation := true, includeProfile := false, includeAnomalies := true }
  else if queryType = "disease" then
    { trends := ["temperature", "humidity"], trendDays := 7, conversations := 2,
      includeIrrigation := false, includeProfile := false, includeAnomalies := true }
  else if queryType = "fertilizer" then
    { trends := ["nitrogen", "phosphorus", "potassium", "ph"], trendDays := 14, conversations := 3,
      includeIrrigation := false, includeProfile := true, includeAnomalies := true }
  else if queryType = "ph" then
    { trends := ["ph", "nitrogen"], trendDays := 14, conversations := 2,
      includeIrrigation := false, includeProfile := false, includeAnomalies := true }
  else if queryType = "nutrients" then
    { trends := ["nitrogen", "phosphorus", "potassium"], trendDays := 14, conversations := 3,
      includeIrrigation := false, includeProfile := true, includeAnomalies := true }
  else
    { trends := ["moisture", "ph"], trendDays := 7, conversations := 2,
      includeIrrigation := false, includeProfile := true, includeAnomalies := false }

/-- Embeds `_filterTrends(trends, relevantParams)`: keep only the requested
metrics that are present, in request order (the JS loop over
`relevantParams`). -/
def filterTrends (trends : List (String × TrendRecord)) (relevantParams : List String) :
    List (String × TrendRecord) :=
  relevantParams.filterMap (fun p => (trends.lookup p).map (fun v => (p, v)))

/-- Embeds `_estimateTokens(conversations, trends, needs)`. -/
def estimateTokens (conversations : List ConvSummary)
    (trends : Option (List (String × TrendRecord))) (needs : ContextProfile) : Nat :=
  100 + conversations.length * 100 +
    (if trends.isSome then needs.trends.length * 30 else 0) +
    (if needs.includeProfile then 100 else 0) +
    (if needs.includeIrrigation then 80 else 0) +
    (if needs.includeAnomalies then 50 else 0)

/-- Results of the memory-service sub-fetches, each already degraded to a
default by its own catch block in the source (`getRecentTrends` returns null
on error, `getRecentConversations` an empty list, and so on). The fetches are
indexed the way the source parameterises them: trends and conversations by
the window in days, irrigation by days, similar queries by type and limit. -/
structure MemoryEnv where
  recentTrends : Nat → Option (List (String × TrendRecord))
  recentConversations : Nat → Nat → List ConvSummary
  farmerProfile : Option FarmerProfileView
  irrigationHistory : Nat → Option IrrigationSummary
  anomalies : List Anomaly
  similarQueries : String → Nat → List SimilarQuery

/-- Embeds `buildEnrichedContext(userId, query, currentSensors, queryType)`.
The concurrent `Promise.all` fan-out is modelled by reading each sub-fetch
result from `env`; a sub-fetch that is skipped by its flag contributes
`null`/empty exactly as the `Promise.resolve(null)` placeholders do. The
outer catch (minimal bundle) is unreachable in this total model because every
sub-fetch already returns a caught default. -/
def buildEnrichedContext (env : MemoryEnv) (query : String) (currentSensors : SensorSnapshot)
    (queryType : String) : EnrichedContext :=
  let needs := contextNeeds queryType
  let trends := env.recentTrends needs.trendDays
  let recentConversations := env.recentConversations needs.trendDays needs.conversations
  let farmerProfile := if needs.includeProfile then env.farmerProfile else none
  let irrigationHistory := if needs.includeIrrigation then env.irrigationHistory 3 else none
  let anomalies := if needs.includeAnomalies then env.anomalies else []
  let similarQueries := env.similarQueries queryType 2
  let filteredTrends := trends.map (fun t => filterTrends t needs.trends)
  { query := query
    queryType := queryType
    currentSensors := currentSensors
    trends := filteredTrends
    pastConversations := recentConversations.take needs.conversations
    similarQueries := similarQueries
    farmerProfile := farmerProfile
    irrigationHistory := irrigationHistory
    anomalies := anomalies
    contextStats :=
      { conversationsFound := recentConversations.length
        trendsIncluded := needs.trends
        contextType := queryType
        estimatedTokens := estimateTokens recentConversations filteredTrends needs } }

/-! ## FarmProfile model (models/FarmProfile.js) -/

/-- One entry of `successful_actions`. -/
structure SuccessfulAction where
  action : String
  date : Nat
  problem : String
  result : String
  cost : String
  cropType : String
  deriving DecidableEq, Repr

/-- One entry of `failed_actions`. -/
structure FailedAction where
  action : String
  date : Nat
  problem : String
  reason : String
  lesson : String
  cropType : String
  deriving DecidableEq, Repr

/-- The behavioural-pattern subdocument (the fields the modelled methods
touch). -/
structure Patterns where
  response_rate : ℚ
  preferred_methods : List String
  common_issues : List String
  deriving DecidableEq, Repr

/-- The farm profile document (fields touched by the modelled methods; the
schema's crop-rotation, alert-preference and stats subdocuments are untouched
by `addSuccessfulAction`/`addFailedAction` and are omitted). -/
structure FarmProfile where
  userId : String
  patterns : Patterns
  successful_actions : List SuccessfulAction
  failed_actions : List FailedAction
  lastUpdated : Nat
  deriving DecidableEq, Repr

/-- Embeds `FarmProfileSchema.methods.addSuccessfulAction`: push the new
action, then recompute `patterns.response_rate` as successes over total
recorded actions. `now` stands for the JS `new Date()`. -/
def addSuccessfulAction (p : FarmProfile) (now : Nat)
    (action problem result cost cropType : String) : FarmProfile :=
  let successes := p.successful_actions ++
    [{ action := action, date := now, problem := problem, result := result,
       cost := cost, cropType := cropType }]
  let totalActions := successes.length + p.failed_actions.length
  { p with
    successful_actions := successes
    patterns := { p.patterns with
      response_rate := (successes.length : ℚ) / (totalActions : ℚ) }
    lastUpdated := now }

/-- Embeds `FarmProfileSchema.methods.addFailedAction`: push the failure and
record the problem among the common issues if new; the response rate is not
recomputed here. -/
def addFailedAction (p : FarmProfile) (now : Nat)
    (action problem reason lesson cropType : String) : FarmProfile :=
  let failures := p.failed_actions ++
    [{ action := action, date := now, problem := problem, reason := reason,
       lesson := lesson, cropType := cropType }]
  { p with
    failed_actions := failures
    patterns := { p.patterns with
      common_issues :=
        if p.patterns.common_issues.contains problem then p.patterns.common_issues
        else p.patterns.common_issues ++ [problem] }
    lastUpdated := now }

/-! ## Response formatting: _extractActions / _determinePriority /
_extractInsights / _extractAlerts (aiService.js) -/

/-- Action priority tags. -/
inductive Priority where
  | urgent
  | high
  | medium
  | low
  deriving DecidableEq, Repr

/-- One extracted action. -/
structure ActionItem where
  action : String
  priority : Priority
  deriving DecidableEq, Repr

/-- The `urgent` keyword list of `_determinePriority`. -/
def urgentWords : List String := ["immediately", "urgent", "critical", "now", "today", "asap"]

/-- The `high` keyword list of `_determinePriority`. -/
def highWords : List String := ["soon", "quickly", "within 1-2 days", "important"]

/-- Embeds `_determinePriority(actionText)`: lowercase the text, then first
urgency list hit wins, then the literal word `within`, else low. -/
def determinePriority (actionText : String) : Priority :=
  let text := lowerChars actionText.data
  if urgentWords.any (fun w => strIncludes text w.data) then Priority.urgent
  else if highWords.any (fun w => strIncludes text w.data) then Priority.high
  else if strIncludes text "within".data then Priority.medium
  else Priority.low

/-- Matcher for one occurrence of the numbered-item regex
`\d+\.\s+([^.\n]+)` at the head of the input: digits, a dot, whitespace, then
the captured maximal run of characters other than `.` and newline. Returns
the capture and the remainder after the whole match. -/
def matchNumbered (cs : List Char) : Option (List Char × List Char) :=
  let ds := cs.takeWhile Char.isDigit
  if ds.isEmpty then none
  else
    match cs.drop ds.length with
    | '.' :: rest =>
      let ws := rest.takeWhile isSpaceChar
      if ws.isEmpty then none
      else
        let rest2 := rest.drop ws.length
        let cap := rest2.takeWhile (fun ch => !(ch == '.') && !(ch == '\n'))
        if cap.isEmpty then none else some (cap, rest2.drop cap.length)
    | _ => none

/-- Matcher for one occurrence of the bulleted-item regex `[-•]\s+([^.\n]+)`
at the head of the input. -/
def matchBulleted (cs : List Char) : Option (List Char × List Char) :=
  match cs with
  | [] => none
  | c :: rest =>
    if c == '-' || c == '•' then
      let ws := rest.takeWhile isSpaceChar
      if ws.isEmpty then none
      else
        let rest2 := rest.drop ws.length
        let cap := rest2.takeWhile (fun ch => !(ch == '.') && !(ch == '\n'))
        if cap.isEmpty then none else some (cap, rest2.drop cap.length)
    else none

/-- Repeated application of a head matcher, as the JS
`while ((match = pattern.exec(response)) !== null)` loop: on a match, resume
after it; otherwise advance one character. Fuel bounds the recursion; each
step consumes at least one character, so the input length is enough fuel. -/
def scanAux (m : List Char → Option (List Char × List Char)) :
    Nat → List Char → List (List Char)
  | 0, _ => []
  | _ + 1, [] => []
  | fuel + 1, c :: cs =>
    match m (c :: cs) with
    | some capRest => capRest.1 :: scanAux m fuel capRest.2
    | none => scanAux m fuel cs

/-- All captures of a matcher over the input, in order of first appearance. -/
def scanMatches (m : List Char → Option (List Char × List Char)) (cs : List Char) :
    List (List Char) :=
  scanAux m cs.length cs

/-- Embeds `_extractActions(response)`: collect the numbered-pattern captures
then the bulleted-pattern captures, trim each, keep those of length strictly
between 10 and 150, tag a priority, and cap at 5 (`actions.slice(0, 5)`). -/
def extractActions (response : String) : List ActionItem :=
  let caps := scanMatches matchNumbered response.data ++ scanMatches matchBulleted response.data
  let kept := caps.filterMap (fun cap =>
    let a := String.mk (trimChars cap)
    if 10 < a.length ∧ a.length < 150 then
      some { action := a, priority := determinePriority a }
    else none)
  kept.take 5

/-- One insight value. In JS the value is an interpolated string; the entry
here carries the same content structurally: `trend param direction |change|`
stands for `"param is direction by abs(change).toFixed(2)"` under key
`param_trend`, and `history q d` for `"Last successful: q (dd ago)"` under
key `history`. -/
inductive InsightEntry where
  | trend (param : String) (direction : Direction) (magnitude : ℚ)
  | history (query : String) (daysAgo : Nat)
  deriving DecidableEq, Repr

/-- Embeds `_extractInsights(response, enrichedContext)`: one trend insight
for each trend metric whose name occurs in the lowercased answer, plus the
first past conversation marked successful, if any. -/
def extractInsights (response : String) (ctx : EnrichedContext) : List InsightEntry :=
  let lower := lowerChars response.data
  let fromTrends :=
    match ctx.trends with
    | none => []
    | some ts => ts.filterMap (fun pd =>
        if strIncludes lower pd.1.data then
          some (InsightEntry.trend pd.1 pd.2.direction |pd.2.change|)
        else none)
  let fromHistory :=
    match ctx.pastConversations.find? (fun c => c.wasSuccessful == some true) with
    | some c => [InsightEntry.history c.query c.daysAgo]
    | none => []
  fromTrends ++ fromHistory

/-- The critical keyword list of `_extractAlerts`. -/
def criticalKeywords : List String := ["critical", "dangerous", "must", "immediately", "urgent"]

/-- Sentence terminators of the `_extractAlerts` sentence regex. -/
def isTerminator (c : Char) : Bool := c == '.' || c == '!' || c == '?'

/-- Splits the text into sentence segments, each including its closing
terminator; trailing characters after the last terminator form no segment.
This is the set of candidate matches of the JS regex
`[^.!?]*(?:critical|dangerous|must|immediately|urgent)[^.!?]*[.!?]` scanned
globally: exactly the terminator-closed segments that contain a keyword. -/
def splitSentencesAux : List Char → List Char → List (List Char)
  | _, [] => []
  | acc, c :: cs =>
    if isTerminator c then (acc.reverse ++ [c]) :: splitSentencesAux [] cs
    else splitSentencesAux (c :: acc) cs

/-- The terminator-closed sentence segments of a text. -/
def splitSentences (cs : List Char) : List (List Char) := splitSentencesAux [] cs

/-- Embeds the `response.match(...)` of `_extractAlerts`: the sentence
segments containing a critical keyword, case-insensitively. -/
def criticalSentences (cs : List Char) : List (List Char) :=
  (splitSentences cs).filter
    (fun seg => criticalKeywords.any (fun k => strIncludes (lowerChars seg) k.data))

/-- Embeds `_extractAlerts(response, enrichedContext)`: high-severity anomaly
messages with a warning prefix, then up to two deduplicated critical
sentences from the answer, the whole list capped at 3. -/
def extractAlerts (response : String) (ctx : EnrichedContext) : List String :=
  let fromAnomalies := (ctx.anomalies.filter (fun a => a.severity == "high")).map
    (fun a => "⚠️  " ++ a.message)
  let lower := lowerChars response.data
  let combined :=
    if criticalKeywords.any (fun k => strIncludes lower k.data) then
      ((criticalSentences response.data).take 2).foldl
        (fun acc seg =>
          let clean := String.mk (trimChars seg)
          if acc.contains clean then acc else acc ++ [clean])
        fromAnomalies
    else fromAnomalies
  combined.take 3

/-! ## LangGraph orchestration (aiService.js)

The graph of `_buildGraph`: nodes 1–6 plus the retry node, the two
conditional edges, and unconditional edges everywhere else. Every external
interaction (context building, classifier, generator, judge, retry
generation, storage) is a call that either returns a value or throws; the
`Oracle` fixes the outcome of each such call, with the judge and
retry-generation calls indexed by how many times they have been invoked, so
that adversarial score sequences are quantifiable. -/

/-- The `stage` tags written by the node functions. -/
inductive Stage where
  | start
  | context_built
  | classified
  | response_generated
  | judge_approved
  | judge_rejected
  | judge_approved_with_warning
  | max_retries_reached
  | response_improved
  | retry_failed
  | response_formatted
  | response_formatted_with_error
  | complete
  | complete_with_error
  | error
  deriving DecidableEq, Repr

/-- The graph nodes of `_buildGraph`. -/
inductive Node where
  | contextBuilder
  | queryClassifier
  | responseGenerator
  | judgeEvaluator
  | enhancedRetry
  | responseFormatter
  | storageAndLearning
  deriving DecidableEq, Repr

/-- Classifier output (`{type, complexity, intent, requiresSubQueries,
subQueries}`). -/
structure Classification where
  type : String
  complexity : String
  intent : String
  requiresSubQueries : Bool
  subQueries : List String
  deriving DecidableEq, Repr

/-- Judge output. The call-failure substitute in the source carries only
`score` and `reasoning`; the typed model fills the list fields with `[]`. -/
structure Judgement where
  score : Int
  strengths : List String
  weaknesses : List String
  suggestions : List String
  reasoning : String
  deriving DecidableEq, Repr

/-- Formatted final payload (`formattedResponse`). -/
structure FormattedResponse where
  response : String
  insights : List InsightEntry
  actions : List ActionItem
  alerts : List String
  deriving DecidableEq, Repr

/-- The mutable pipeline state threaded through the graph
(`StateAnnotation`). Timestamps are omitted (wall-clock time is not
modelled). -/
structure PipelineState where
  query : String
  userId : String
  currentSensors : SensorSnapshot
  queryType : String
  enrichedContext : Option EnrichedContext
  classification : Option Classification
  aiResponse : String
  judgement : Option Judgement
  retryCount : Nat
  formattedResponse : Option FormattedResponse
  conversationId : String
  stage : Stage
  error : Option String
  deriving DecidableEq, Repr

/-- Outcomes of the external calls a run can make. `judgeResult k` is the
result of the `k`-th judge invocation (a parse failure of the judge JSON is
an `ok` result carrying the score-75 default the source substitutes;
likewise for the classifier). `retryResult k` is the `k`-th retry-generation
call. -/
structure Oracle where
  contextResult : Except String EnrichedContext
  classifierResult : Except String Classification
  generateResult : Except String String
  judgeResult : Nat → Except String Judgement
  retryResult : Nat → Except String String
  storeResult : Except String String

/-- A point of graph execution: the node about to run (`none` once `END` is
reached), the pipeline state, how many judge and retry-generation calls have
been made, and the nodes executed so far in order. -/
structure ExecState where
  node : Option Node
  pipeline : PipelineState
  judgeCalls : Nat
  retryGenCalls : Nat
  visited : List Node

/-- The judge conditional edge of `_buildGraph`:
`state.judgement?.score >= 85` routes to the formatter, otherwise to the
retry node (an absent judgement compares as false in JS). -/
def judgeRouter (j : Option Judgement) : Node :=
  match j with
  | some jd => if 85 ≤ jd.score then Node.responseFormatter else Node.enhancedRetry
  | none => Node.enhancedRetry

/-- The after-retry conditional edge of `_buildGraph`:
`state.retryCount >= 1` routes to the formatter, otherwise back to the
judge. -/
def retryRouter (retryCount : Nat) : Node :=
  if 1 ≤ retryCount then Node.responseFormatter else Node.judgeEvaluator

/-- Node 1 (`node1_contextBuilder`): build the enriched context; on a throw,
record the error and the `error` stage. Either way the graph's unconditional
edge continues to the classifier. -/
def node1_contextBuilder (env : Oracle) (s : ExecState) : ExecState :=
  let p := s.pipeline
  let v := s.visited ++ [Node.contextBuilder]
  match env.contextResult with
  | Except.ok ctx =>
    { s with
      pipeline := { p with enrichedContext := some ctx, stage := Stage.context_built }
      node := some Node.queryClassifier, visited := v }
  | Except.error msg =>
    { s with
      pipeline := { p with error := some ("Context building failed: " ++ msg),
                           stage := Stage.error }
      node := some Node.queryClassifier, visited := v }

/-- Node 2 (`node2_queryClassifier`): classify; both a call failure and an
unparseable response substitute the safe default
(`type` from the state's hint or `general`, `simple`, no sub-queries) and
proceed — never fatal. -/
def node2_queryClassifier (env : Oracle) (s : ExecState) : ExecState :=
  let p := s.pipeline
  let v := s.visited ++ [Node.queryClassifier]
  let fallback : Classification :=
    { type := if p.queryType = "" then "general" else p.queryType
      complexity := "simple", intent := "question"
      requiresSubQueries := false, subQueries := [] }
  let c := match env.classifierResult with
    | Except.ok c => c
    | Except.error _ => fallback
  { s with
    pipeline := { p with classification := some c, stage := Stage.classified }
    node := some Node.responseGenerator, visited := v }

/-- Node 3 (`node3_responseGenerator`): generate the answer and reset the
retry counter to 0. The simple/complex prompt construction is abstracted
into the oracle's generation result. When the enriched context is null,
`formatContextForAI` throws while destructuring it, which the node's catch
turns into a fatal `error` stage — as does a generation-call failure. -/
def node3_responseGenerator (env : Oracle) (s : ExecState) : ExecState :=
  let p := s.pipeline
  let v := s.visited ++ [Node.responseGenerator]
  let gen : Except String String :=
    if p.enrichedContext.isSome then env.generateResult
    else Except.error "Cannot destructure null enrichedContext"
  match gen with
  | Except.ok r =>
    { s with
      pipeline := { p with aiResponse := r, stage := Stage.response_generated, retryCount := 0 }
      node := some Node.judgeEvaluator, visited := v }
  | Except.error msg =>
    { s with
      pipeline := { p with error := some ("Response generation failed: " ++ msg),
                           stage := Stage.error }
      node := some Node.judgeEvaluator, visited := v }

/-- Node 4 (`node4_judgeEvaluator`): score the answer. A call failure
substitutes the neutral judgement `{score: 75, reasoning: "Judge
unavailable, proceeding with caution"}` and the
`judge_approved_with_warning` stage; a returned judgement sets
`judge_approved` or `judge_rejected` by the 85 threshold. The conditional
edge then routes on the updated state. -/
def node4_judgeEvaluator (env : Oracle) (s : ExecState) : ExecState :=
  let p := s.pipeline
  let v := s.visited ++ [Node.judgeEvaluator]
  let p2 := match env.judgeResult s.judgeCalls with
    | Except.ok j =>
      { p with judgement := some j
               stage := if 85 ≤ j.score then Stage.judge_approved else Stage.judge_rejected }
    | Except.error _ =>
      { p with judgement := some { score := 75, strengths := [], weaknesses := [],
                                   suggestions := [],
                                   reasoning := "Judge unavailable, proceeding with caution" }
               stage := Stage.judge_approved_with_warning }
  { s with pipeline := p2, judgeCalls := s.judgeCalls + 1
           node := some (judgeRouter p2.judgement), visited := v }

/-- Node 4.1 (`node4_1_enhancedRetry`): if the counter has reached 1, skip
without calling anything (`max_retries_reached`); otherwise make the
retry-generation call, and on success install the improved answer (an empty
result falls back to the previous answer, the JS `|| state.aiResponse`) and
increment the counter; a call failure keeps the state (`retry_failed`). The
after-retry conditional edge routes on the updated counter. -/
def node4_1_enhancedRetry (env : Oracle) (s : ExecState) : ExecState :=
  let p := s.pipeline
  let v := s.visited ++ [Node.enhancedRetry]
  if 1 ≤ p.retryCount then
    let p2 := { p with stage := Stage.max_retries_reached }
    { s with pipeline := p2, node := some (retryRouter p2.retryCount), visited := v }
  else
    let p2 := match env.retryResult s.retryGenCalls with
      | Except.ok r =>
        { p with aiResponse := if r = "" then p.aiResponse else r
                 retryCount := p.retryCount + 1, stage := Stage.response_improved }
      | Except.error _ => { p with stage := Stage.retry_failed }
    { s with pipeline := p2, retryGenCalls := s.retryGenCalls + 1
             node := some (retryRouter p2.retryCount), visited := v }

/-- Node 5 (`node5_responseFormatter`): derive insights, actions and alerts
from the answer text. With a null enriched context, `_extractInsights`
throws while destructuring it, and the catch substitutes the empty formatted
payload (`response_formatted_with_error`) — never fatal. -/
def node5_responseFormatter (s : ExecState) : ExecState :=
  let p := s.pipeline
  let v := s.visited ++ [Node.responseFormatter]
  let p2 := match p.enrichedContext with
    | some ctx =>
      { p with
        formattedResponse := some
          { response := p.aiResponse
            insights := extractInsights p.aiResponse ctx
            actions := extractActions p.aiResponse
            alerts := extractAlerts p.aiResponse ctx }
        stage := Stage.response_formatted }
    | none =>
      { p with
        formattedResponse := some
          { response := p.aiResponse, insights := [], actions := [], alerts := [] }
        stage := Stage.response_formatted_with_error }
  { s with pipeline := p2, node := some Node.storageAndLearning, visited := v }

/-- Node 6 (`node6_storageAndLearning`): build and store the conversation
record. Reading `enrichedContext.currentSensors` or `classification.type`
throws when either is null, and a storage failure is caught the same way:
the stage becomes `complete_with_error` and the already-computed result is
untouched. -/
def node6_storageAndLearning (env : Oracle) (s : ExecState) : ExecState :=
  let p := s.pipeline
  let v := s.visited ++ [Node.storageAndLearning]
  let p2 :=
    if p.enrichedContext.isSome && p.classification.isSome then
      match env.storeResult with
      | Except.ok cid => { p with conversationId := cid, stage := Stage.complete }
      | Except.error _ => { p with stage := Stage.complete_with_error }
    else { p with stage := Stage.complete_with_error }
  { s with pipeline := p2, node := none, visited := v }

/-- Dispatch one node. -/
def execNode (env : Oracle) (s : ExecState) : Node → ExecState
  | Node.contextBuilder => node1_contextBuilder env s
  | Node.queryClassifier => node2_queryClassifier env s
  | Node.responseGenerator => node3_responseGenerator env s
  | Node.judgeEvaluator => node4_judgeEvaluator env s
  | Node.enhancedRetry => node4_1_enhancedRetry env s
  | Node.responseFormatter => node5_responseFormatter s
  | Node.storageAndLearning => node6_storageAndLearning env s

/-- One execution step: run the pending node, or do nothing at `END`. -/
def stepExec (env : Oracle) (s : ExecState) : ExecState :=
  match s.node with
  | none => s
  | some n => execNode env s n

/-- Run the graph for at most `fuel` steps. -/
def runExec (env : Oracle) : Nat → ExecState → ExecState
  | 0, s => s
  | fuel + 1, s => runExec env fuel (stepExec env s)

/-- The initial state `processQuery` hands to `compiledGraph.invoke`
(the `userId || 'farmer_001'` default included). -/
def initialState (userId query : String) (currentSensors : SensorSnapshot) : PipelineState :=
  { query := query
    userId := if userId = "" then "farmer_001" else userId
    currentSensors := currentSensors
    queryType := "general"
    enrichedContext := none
    classification := none
    aiResponse := ""
    judgement := none
    retryCount := 0
    formattedResponse := none
    conversationId := ""
    stage := Stage.start
    error := none }

/-- Graph entry point: the context builder is the `START` edge target. -/
def initExec (userId query : String) (currentSensors : SensorSnapshot) : ExecState :=
  { node := some Node.contextBuilder
    pipeline := initialState userId query currentSensors
    judgeCalls := 0
    retryGenCalls := 0
    visited := [] }

/-- A plain sensor snapshot. -/
def sensorsW : SensorSnapshot :=
  { moisture := 35, ph := 65 / 10, nitrogen := 50, phosphorus := 30, potassium := 40,
    temperature := 28, humidity := 60, crop := "Tomato",
    motorStatus := false, manualMode := false }

/-- A minimal enriched context (no trends, no history, no anomalies). -/
def ctxW : EnrichedContext :=
  { query := "Should I water now?", queryType := "general", currentSensors := sensorsW,
    trends := none, pastConversations := [], similarQueries := [], farmerProfile := none,
    irrigationHistory := none, anomalies := []
    contextStats := { conversationsFound := 0, trendsIncluded := ["moisture", "ph"],
                      contextType := "general", estimatedTokens := 100 } }

/-- A plain classifier result. -/
def classW : Classification :=
  { type := "watering", complexity := "simple", intent := "question",
    requiresSubQueries := false, subQueries := [] }

/-- A judgement above the 85 approval threshold. -/
def jHigh : Judgement :=
  { score := 90, strengths := [], weaknesses := [], suggestions := [], reasoning := "good" }

/-- A judgement below the 85 approval threshold. -/
def jLow : Judgement :=
  { score := 50, strengths := [], weaknesses := [], suggestions := [], reasoning := "weak" }

/-- Oracle for a fully successful run with a first-pass judge score of 90. -/
def envHighScore : Oracle :=
  { contextResult := Except.ok ctxW, classifierResult := Except.ok classW,
    generateResult := Except.ok "Water the field in the morning",
    judgeResult := fun _ => Except.ok jHigh,
    retryResult := fun _ => Except.ok "Water the field in the early morning",
    storeResult := Except.ok "conv_1" }

/-- Oracle for a run whose judge persistently scores 50 while every call
succeeds, exercising the retry path. -/
def envRetryLoop : Oracle :=
  { contextResult := Except.ok ctxW, classifierResult := Except.ok classW,
    generateResult := Except.ok "Water the field in the morning",
    judgeResult := fun _ => Except.ok jLow,
    retryResult := fun _ => Except.ok "Water the field in the early morning",
    storeResult := Except.ok "conv_1" }

/-- A concrete trend record. -/
def trendW : TrendRecord :=
  { current := 30, start := 40, change := -10, changePercent := some (-25),
    direction := Direction.decreasing }

/-- A trends table carrying every metric name the context profiles request. -/
def trendsTableW : List (String × TrendRecord) :=
  [("moisture", trendW), ("ph", trendW), ("nitrogen", trendW), ("phosphorus", trendW),
   ("potassium", trendW), ("temperature", trendW), ("humidity", trendW)]

/-- A memory environment whose trend fetch returns the full table. -/
def memEnvW : MemoryEnv :=
  { recentTrends := fun _ => some trendsTableW
    recentConversations := fun _ _ => []
    farmerProfile := some { currentCropName := "Tomato", topIssues := [],
                            responseRate := 1 / 2, preferredMethods := ["organic"] }
    irrigationHistory := fun _ => none
    anomalies := []
    similarQueries := fun _ _ => [] }

/-- A farm profile with no recorded actions. -/
def freshProfile : FarmProfile :=
  { userId := "farmer_001"
    patterns := { response_rate := 0, preferred_methods := [], common_issues := [] }
    successful_actions := [], failed_actions := [], lastUpdated := 0 }

/-! ## Reachability invariants of the graph -/

/-- The node about to run is one of the three pre-judge stages. -/
def pre3 (s : ExecState) : Prop :=
  s.node = some Node.contextBuilder ∨ s.node = some Node.queryClassifier ∨
    s.node = some Node.responseGenerator

/-- Retry-call accounting: before the generator has run no retry-generation
call has been made, and afterwards (when every retry-generation call
returns) the number of calls made never exceeds the retry counter. -/
def CallsInv (s : ExecState) : Prop :=
  (pre3 s → s.retryGenCalls = 0) ∧ (¬ pre3 s → s.retryGenCalls ≤ s.pipeline.retryCount)

/-- Invariant behind claim C4: when the first judge invocation returns a
score at or above 85, the retry node is never entered. -/
def C4Inv (s : ExecState) : Prop :=
  Node.enhancedRetry ∉ s.visited ∧ s.node ≠ some Node.enhancedRetry ∧
  (s.node = some Node.judgeEvaluator → s.judgeCalls = 0) ∧
  (pre3 s → s.judgeCalls = 0)

/-- Rounding to hundredths moves a rational by at most 1/200. -/
theorem toFixed2_close (x : ℚ) : |toFixed2 x - x| ≤ 1 / 200 := by
  have h1 : (⌊x * 100 + 1 / 2⌋ : ℚ) ≤ x * 100 + 1 / 2 := Int.floor_le _
  have h2 : x * 100 + 1 / 2 - 1 < (⌊x * 100 + 1 / 2⌋ : ℚ) := Int.sub_one_lt_floor _
  rw [toFixed2, abs_le]
  exact ⟨by linarith, by linarith⟩

/-- Claim C7 counterexample: `calculatePercentageChange(3, 4)` is 33.33 (the
`toFixed(2)` rounding), not the exact `(4 − 3) / 3 × 100 = 100/3`, so the
function does not return `(end − start) / start × 100` as claimed. -/
theorem calculatePercentageChange_not_exact :
    calculatePercentageChange 3 4 = 3333 / 100 ∧
    ((4 : ℚ) - 3) / 3 * 100 = 100 / 3 ∧
    calculatePercentageChange 3 4 ≠ ((4 : ℚ) - 3) / 3 * 100 := by
  have hf : (⌊((4 : ℚ) - 3) / 3 * 100 * 100 + 1 / 2⌋ : ℤ) = 3333 := by
    rw [Int.floor_eq_iff]
    norm_num
  have hv : calculatePercentageChange 3 4 = 3333 / 100 := by
    rw [calculatePercentageChange, if_neg (by norm_num : (3 : ℚ) ≠ 0), toFixed2, hf]
    norm_num
  refine ⟨hv, by norm_num, ?_⟩
  rw [hv]
  norm_num

/-- Claim C7 (amended): `calculatePercentageChange(start, end)` returns 0
when `start` is 0 — no division fault — and otherwise returns
`(end − start) / start × 100` rounded to two decimal places (`toFixed(2)`),
hence within 1/200 of the exact percentage. -/
theorem calculatePercentageChange_spec (start endValue : ℚ) :
    (start = 0 → calculatePercentageChange start endValue = 0) ∧
    (start ≠ 0 →
      calculatePercentageChange start endValue = toFixed2 ((endValue - start) / start * 100) ∧
      |calculatePercentageChange start endValue - (endValue - start) / start * 100| ≤ 1 / 200) := by
  refine ⟨fun h => by simp [calculatePercentageChange, h], fun h => ?_⟩
  rw [calculatePercentageChange, if_neg h]
  exact ⟨rfl, toFixed2_close _⟩

/-- Claim C7 witness: the zero case and the rounded case at start 3, end 4. -/
theorem calculatePercentageChange_spec_witness :
    calculatePercentageChange 0 5 = 0 ∧
    calculatePercentageChange 3 4 = toFixed2 (((4 : ℚ) - 3) / 3 * 100) ∧
    |calculatePercentageChange 3 4 - ((4 : ℚ) - 3) / 3 * 100| ≤ 1 / 200 :=
  ⟨(calculatePercentageChange_spec 0 5).1 rfl,
   ((calculatePercentageChange_spec 3 4).2 (by norm_num)).1,
   ((calculatePercentageChange_spec 3 4).2 (by norm_num)).2⟩

/-- Claim C8: a series of fewer than 2 samples has slope 0 and direction
`stable`, and at the default threshold 0.01 the direction is `increasing`
exactly when the slope exceeds 0.01, `decreasing` exactly when it is below
−0.01, and `stable` otherwise. -/
theorem slope_direction_spec :
    (∀ values : List ℚ, values.length < 2 →
      calculateSlope values = 0 ∧
      getTrendDirection (calculateSlope values) (1 / 100) = Direction.stable) ∧
    (∀ slope : ℚ,
      (getTrendDirection slope (1 / 100) = Direction.increasing ↔ 1 / 100 < slope) ∧
      (getTrendDirection slope (1 / 100) = Direction.decreasing ↔ slope < -(1 / 100)) ∧
      (getTrendDirection slope (1 / 100) = Direction.stable ↔
        -(1 / 100) ≤ slope ∧ slope ≤ 1 / 100)) := by
  constructor
  · intro values h
    have hz : calculateSlope values = 0 := by rw [calculateSlope, if_pos h]
    refine ⟨hz, ?_⟩
    rw [hz, getTrendDirection, if_neg (by norm_num), if_neg (by norm_num)]
  · intro slope
    unfold getTrendDirection
    split_ifs with h1 h2
    · refine ⟨iff_of_true rfl h1, ?_, ?_⟩
      · simp only [reduceCtorEq, false_iff, not_lt]
        linarith
      · simp only [reduceCtorEq, false_iff, not_and, not_le]
        intro _
        exact h1
    · refine ⟨?_, iff_of_true rfl h2, ?_⟩
      · simp only [reduceCtorEq, false_iff, not_lt]
        linarith
      · simp only [reduceCtorEq, false_iff, not_and, not_le]
        intro ha
        linarith
    · refine ⟨?_, ?_, ?_⟩
      · simp only [reduceCtorEq, false_iff, not_lt]
        linarith
      · simp only [reduceCtorEq, false_iff, not_lt]
        linarith
      · exact iff_of_true rfl ⟨by linarith, by linarith⟩

/-- Claim C8 witness: the single-sample series and a concrete slope. -/
theorem slope_direction_spec_witness :
    calculateSlope [(5 : ℚ)] = 0 ∧
    getTrendDirection (calculateSlope [(5 : ℚ)]) (1 / 100) = Direction.stable ∧
    (getTrendDirection (2 / 100) (1 / 100) = Direction.increasing ↔ (1 : ℚ) / 100 < 2 / 100) :=
  ⟨(slope_direction_spec.1 [5] (by decide)).1,
   (slope_direction_spec.1 [5] (by decide)).2,
   (slope_direction_spec.2 (2 / 100)).1⟩

/-- Claim C9: recording a first successful action on a profile with no prior
successful or failed actions makes `patterns.response_rate` exactly 1. -/
theorem first_success_response_rate (p : FarmProfile) (now : Nat)
    (action problem result cost cropType : String)
    (hs : p.successful_actions = []) (hf : p.failed_actions = []) :
    (addSuccessfulAction p now action problem result cost cropType).patterns.response_rate = 1 := by
  simp [addSuccessfulAction, hs, hf]

/-- Claim C9 witness: a fresh profile and one successful action. -/
theorem first_success_response_rate_witness :
    (addSuccessfulAction freshProfile 1 "watered field" "dry soil" "recovered" "low"
      "Tomato").patterns.response_rate = 1 :=
  first_success_response_rate freshProfile 1 "watered field" "dry soil" "recovered" "low"
    "Tomato" rfl rfl

/-- Claim C10: `HourlyData.getTrends` returns null for fewer than 2 rows in
the window; otherwise each metric's direction is pure endpoint comparison
(`increasing` iff last > first, `decreasing` iff last < first, `stable` only
at exact equality — no regression slope), and `changePercent` is non-finite
(no zero guard) exactly when the start-of-window value is 0. -/
theorem getTrends_endpoint_spec :
    (∀ data : List HourlyRecord, data.length < 2 → getTrends data = none) ∧
    (∀ values : List ℚ,
      ((calculateTrend values).direction = Direction.increasing ↔
        values.headD 0 < values.getLastD 0) ∧
      ((calculateTrend values).direction = Direction.decreasing ↔
        values.getLastD 0 < values.headD 0) ∧
      ((calculateTrend values).direction = Direction.stable ↔
        values.headD 0 = values.getLastD 0)) ∧
    (∀ values : List ℚ, (calculateTrend values).changePercent = none ↔ values.headD 0 = 0) := by
  refine ⟨fun data h => by rw [getTrends, if_pos h], fun values => ?_, fun values => ?_⟩
  · unfold calculateTrend
    simp only
    split_ifs with h1 h2
    · refine ⟨iff_of_true rfl h1, ?_, ?_⟩
      · simp only [reduceCtorEq, false_iff, not_lt]
        linarith
      · simp only [reduceCtorEq, false_iff]
        intro he
        rw [he] at h1
        exact absurd h1 (lt_irrefl _)
    · refine ⟨?_, iff_of_true rfl h2, ?_⟩
      · simp only [reduceCtorEq, false_iff, not_lt]
        linarith
      · simp only [reduceCtorEq, false_iff]
        intro he
        rw [he] at h2
        exact absurd h2 (lt_irrefl _)
    · refine ⟨?_, ?_, ?_⟩
      · simp only [reduceCtorEq, false_iff, not_lt]
        linarith
      · simp only [reduceCtorEq, false_iff, not_lt]
        linarith
      · exact iff_of_true rfl (le_antisymm (le_of_not_lt h2) (le_of_not_lt h1))
  · unfold calculateTrend
    simp only
    split_ifs with h
    · exact iff_of_true rfl h
    · exact iff_of_false (by simp) h

/-- Claim C10 witness: the empty window, a rising pair, and a zero start. -/
theorem getTrends_endpoint_spec_witness :
    getTrends [] = none ∧
    ((calculateTrend [(1 : ℚ), 2]).direction = Direction.increasing ↔
      ([(1 : ℚ), 2].headD 0 < [(1 : ℚ), 2].getLastD 0)) ∧
    ((calculateTrend [(0 : ℚ), 2]).changePercent = none ↔ [(0 : ℚ), 2].headD 0 = 0) :=
  ⟨getTrends_endpoint_spec.1 [] (by decide),
   (getTrends_endpoint_spec.2.1 [1, 2]).1,
   getTrends_endpoint_spec.2.2 [0, 2]⟩

/-- Claim C5: the `watering` profile scopes the bundle to exactly the
moisture, temperature and humidity trends over a 7-day window with the
farmer profile nulled out; the `fertilizer` profile to exactly the nitrogen,
phosphorus, potassium and pH trends over a 14-day window with the farmer
profile included; and any query type outside the lookup table falls back to
the default profile (moisture+pH trends, 7-day window, 2 conversations,
profile included, anomalies excluded). -/
theorem context_profiles_spec :
    (∀ (env : MemoryEnv) (q : String) (sensors : SensorSnapshot)
        (t : List (String × TrendRecord)) (rm rt rh : TrendRecord),
      env.recentTrends 7 = some t →
      t.lookup "moisture" = some rm →
      t.lookup "temperature" = some rt →
      t.lookup "humidity" = some rh →
      (buildEnrichedContext env q sensors "watering").trends =
        some [("moisture", rm), ("temperature", rt), ("humidity", rh)] ∧
      (buildEnrichedContext env q sensors "watering").farmerProfile = none ∧
      (contextNeeds "watering").trendDays = 7) ∧
    (∀ (env : MemoryEnv) (q : String) (sensors : SensorSnapshot)
        (t : List (String × TrendRecord)) (rn rp rk rph : TrendRecord),
      env.recentTrends 14 = some t →
      t.lookup "nitrogen" = some rn →
      t.lookup "phosphorus" = some rp →
      t.lookup "potassium" = some rk →
      t.lookup "ph" = some rph →
      (buildEnrichedContext env q sensors "fertilizer").trends =
        some [("nitrogen", rn), ("phosphorus", rp), ("potassium", rk), ("ph", rph)] ∧
      (buildEnrichedContext env q sensors "fertilizer").farmerProfile = env.farmerProfile ∧
      (contextNeeds "fertilizer").trendDays = 14) ∧
    (∀ queryType : String,
      queryType ≠ "watering" → queryType ≠ "disease" → queryType ≠ "fertilizer" →
      queryType ≠ "ph" → queryType ≠ "nutrients" →
      contextNeeds queryType =
        { trends := ["moisture", "ph"], trendDays := 7, conversations := 2,
          includeIrrigation := false, includeProfile := true, includeAnomalies := false } ∧
      ∀ (env : MemoryEnv) (q : String) (sensors : SensorSnapshot),
        (buildEnrichedContext env q sensors queryType).farmerProfile = env.farmerProfile ∧
        (buildEnrichedContext env q sensors queryType).anomalies = []) := by
  refine ⟨?_, ?_, ?_⟩
  · intro env q sensors t rm rt rh ht hm hte hh
    refine ⟨?_, by simp [buildEnrichedContext, contextNeeds], rfl⟩
    simp [buildEnrichedContext, contextNeeds, filterTrends, ht, hm, hte, hh]
  · intro env q sensors t rn rp rk rph ht hn hp hk hph
    refine ⟨?_, by simp [buildEnrichedContext, contextNeeds], rfl⟩
    simp [buildEnrichedContext, contextNeeds, filterTrends, ht, hn, hp, hk, hph]
  · intro queryType h1 h2 h3 h4 h5
    have hneeds : contextNeeds queryType =
        { trends := ["moisture", "ph"], trendDays := 7, conversations := 2,
          includeIrrigation := false, includeProfile := true, includeAnomalies := false } := by
      rw [contextNeeds, if_neg h1, if_neg h2, if_neg h3, if_neg h4, if_neg h5]
    refine ⟨hneeds, ?_⟩
    intro env q sensors
    constructor
    · show (if (contextNeeds queryType).includeProfile then env.farmerProfile else none) =
        env.farmerProfile
      rw [hneeds]
      simp
    · show (if (contextNeeds queryType).includeAnomalies then env.anomalies else []) = []
      rw [hneeds]
      simp

/-- Claim C5 witness: the watering profile at a full trends table, and the
fallback at the unlisted query type `pest`. -/
theorem context_profiles_spec_witness :
    (buildEnrichedContext memEnvW "q" sensorsW "watering").trends =
      some [("moisture", trendW), ("temperature", trendW), ("humidity", trendW)] ∧
    (buildEnrichedContext memEnvW "q" sensorsW "watering").farmerProfile = none ∧
    contextNeeds "pest" =
      { trends := ["moisture", "ph"], trendDays := 7, conversations := 2,
        includeIrrigation := false, includeProfile := true, includeAnomalies := false } ∧
    (buildEnrichedContext memEnvW "q" sensorsW "pest").farmerProfile = memEnvW.farmerProfile :=
  ⟨(context_profiles_spec.1 memEnvW "q" sensorsW trendsTableW trendW trendW trendW
      rfl rfl rfl rfl).1,
   (context_profiles_spec.1 memEnvW "q" sensorsW trendsTableW trendW trendW trendW
      rfl rfl rfl rfl).2.1,
   (context_profiles_spec.2.2 "pest" (by decide) (by decide) (by decide) (by decide)
      (by decide)).1,
   ((context_profiles_spec.2.2 "pest" (by decide) (by decide) (by decide) (by decide)
      (by decide)).2 memEnvW "q" sensorsW).1⟩

/-- Claim C6: on the two-line numbered answer the extraction yields exactly
the two actions in order, tagged urgent then low; in general every kept
action has trimmed length strictly between 10 and 150 and the list is capped
at 5. -/
theorem extractActions_spec :
    extractActions "1. Apply 50g urea immediately\n2. Check again in 2 days" =
      [{ action := "Apply 50g urea immediately", priority := Priority.urgent },
       { action := "Check again in 2 days", priority := Priority.low }] ∧
    (∀ (response : String) (a : ActionItem), a ∈ extractActions response →
      10 < a.action.length ∧ a.action.length < 150) ∧
    (∀ response : String, (extractActions response).length ≤ 5) := by
  refine ⟨by decide, ?_, ?_⟩
  · intro response a ha
    unfold extractActions at ha
    replace ha := List.take_subset 5 _ ha
    rw [List.mem_filterMap] at ha
    obtain ⟨cap, -, hf⟩ := ha
    dsimp only at hf
    split at hf
    · rename_i hcond
      cases hf
      exact hcond
    · exact absurd hf (by simp)
  · intro response
    unfold extractActions
    rw [List.length_take]
    exact Nat.min_le_left _ _

/-- Claim C6 witness: the first extracted action of the concrete answer
satisfies the length bounds. -/
theorem extractActions_spec_witness :
    10 < ("Apply 50g urea immediately" : String).length ∧
    ("Apply 50g urea immediately" : String).length < 150 :=
  extractActions_spec.2.1 "1. Apply 50g urea immediately\n2. Check again in 2 days"
    { action := "Apply 50g urea immediately", priority := Priority.urgent } (by decide)

/-- One step never raises the retry counter past 1: the only increment is
guarded by `retryCount < 1` in the retry node. -/
theorem stepExec_retryCount_le (env : Oracle) (s : ExecState)
    (h : s.pipeline.retryCount ≤ 1) : (stepExec env s).pipeline.retryCount ≤ 1 := by
  unfold stepExec
  split
  · exact h
  · rename_i n heq
    cases n <;>
      simp only [execNode, node1_contextBuilder, node2_queryClassifier, node3_responseGenerator,
        node4_judgeEvaluator, node4_1_enhancedRetry, node5_responseFormatter,
        node6_storageAndLearning] <;>
      (repeat' split) <;> simp_all

/-- One step preserves the retry-call accounting invariant, provided the
retry-generation calls themselves return (a throwing retry call loops the
run back to the judge with the counter unchanged, which can repeat the
call). -/
theorem stepExec_callsInv (env : Oracle) (s : ExecState)
    (hok : ∀ k, isOk (env.retryResult k) = true)
    (h : CallsInv s) : CallsInv (stepExec env s) := by
  obtain ⟨h1, h2⟩ := h
  unfold stepExec
  split
  · exact ⟨h1, h2⟩
  · rename_i n heq
    cases n
    case contextBuilder =>
      have hc : s.retryGenCalls = 0 := h1 (Or.inl heq)
      simp only [execNode, node1_contextBuilder]
      cases env.contextResult <;> simp_all [CallsInv, pre3]
    case queryClassifier =>
      have hc : s.retryGenCalls = 0 := h1 (Or.inr (Or.inl heq))
      simp only [execNode, node2_queryClassifier]
      simp_all [CallsInv, pre3]
    case responseGenerator =>
      have hc : s.retryGenCalls = 0 := h1 (Or.inr (Or.inr heq))
      simp only [execNode, node3_responseGenerator]
      split <;> simp_all [CallsInv, pre3]
    case judgeEvaluator =>
      have hnp : ¬ pre3 s := by simp [pre3, heq]
      have hc : s.retryGenCalls ≤ s.pipeline.retryCount := h2 hnp
      simp only [execNode, node4_judgeEvaluator, judgeRouter]
      (repeat' split) <;> simp_all [CallsInv, pre3]
    case enhancedRetry =>
      have hnp : ¬ pre3 s := by simp [pre3, heq]
      have hc : s.retryGenCalls ≤ s.pipeline.retryCount := h2 hnp
      simp only [execNode, node4_1_enhancedRetry, retryRouter]
      split
      · simp_all [CallsInv, pre3, retryRouter]
      · rename_i hrc
        cases hres : env.retryResult s.retryGenCalls with
        | ok r => simp_all [CallsInv, pre3, retryRouter]
        | error e =>
          have := hok s.retryGenCalls
          rw [hres] at this
          simp [isOk] at this
    case responseFormatter =>
      have hnp : ¬ pre3 s := by simp [pre3, heq]
      have hc : s.retryGenCalls ≤ s.pipeline.retryCount := h2 hnp
      simp only [execNode, node5_responseFormatter]
      split <;> simp_all [CallsInv, pre3]
    case storageAndLearning =>
      have hnp : ¬ pre3 s := by simp [pre3, heq]
      have hc : s.retryGenCalls ≤ s.pipeline.retryCount := h2 hnp
      simp only [execNode, node6_storageAndLearning]
      (repeat' split) <;> simp_all [CallsInv, pre3]

/-- One step preserves the no-retry invariant when the first judge
invocation returns a score at or above 85. -/
theorem stepExec_c4Inv (env : Oracle) (s : ExecState) (j : Judgement)
    (hj : env.judgeResult 0 = Except.ok j) (hs : 85 ≤ j.score)
    (h : C4Inv s) : C4Inv (stepExec env s) := by
  obtain ⟨hv, hn, hjc, hp⟩ := h
  unfold stepExec
  split
  · exact ⟨hv, hn, hjc, hp⟩
  · rename_i n heq
    cases n
    case contextBuilder =>
      have hc : s.judgeCalls = 0 := hp (Or.inl heq)
      simp only [execNode, node1_contextBuilder]
      cases env.contextResult <;> simp_all [C4Inv, pre3]
    case queryClassifier =>
      have hc : s.judgeCalls = 0 := hp (Or.inr (Or.inl heq))
      simp only [execNode, node2_queryClassifier]
      simp_all [C4Inv, pre3]
    case responseGenerator =>
      have hc : s.judgeCalls = 0 := hp (Or.inr (Or.inr heq))
      simp only [execNode, node3_responseGenerator]
      split <;> simp_all [C4Inv, pre3]
    case judgeEvaluator =>
      have hc0 : s.judgeCalls = 0 := hjc heq
      simp only [execNode, node4_judgeEvaluator, judgeRouter, hc0, hj]
      (repeat' split) <;> simp_all [C4Inv, pre3]
    case enhancedRetry => exact absurd heq hn
    case responseFormatter =>
      simp only [execNode, node5_responseFormatter]
      split <;> simp_all [C4Inv, pre3]
    case storageAndLearning =>
      simp only [execNode, node6_storageAndLearning]
      (repeat' split) <;> simp_all [C4Inv, pre3]

/-- Running the graph keeps the retry counter at or below 1. -/
theorem runExec_retryCount_le (env : Oracle) (fuel : Nat) (s : ExecState)
    (h : s.pipeline.retryCount ≤ 1) : (runExec env fuel s).pipeline.retryCount ≤ 1 := by
  induction fuel generalizing s with
  | zero => exact h
  | succ n ih => exact ih _ (stepExec_retryCount_le env s h)

/-- Running the graph preserves the retry-call accounting invariant. -/
theorem runExec_callsInv (env : Oracle) (fuel : Nat) (s : ExecState)
    (hok : ∀ k, isOk (env.retryResult k) = true)
    (h : CallsInv s) : CallsInv (runExec env fuel s) := by
  induction fuel generalizing s with
  | zero => exact h
  | succ n ih => exact ih _ (stepExec_callsInv env s hok h)

/-- Running the graph preserves the no-retry invariant under a first-pass
score at or above 85. -/
theorem runExec_c4Inv (env : Oracle) (fuel : Nat) (s : ExecState) (j : Judgement)
    (hj : env.judgeResult 0 = Except.ok j) (hs : 85 ≤ j.score)
    (h : C4Inv s) : C4Inv (runExec env fuel s) := by
  induction fuel generalizing s with
  | zero => exact h
  | succ n ih => exact ih _ (stepExec_c4Inv env s j hj hs h)

/-- Claim C2: in every run, over every oracle — in particular over every
adversarial judge-score sequence — the retry counter starts at 0 and never
exceeds 1 at any point of the run, and (when the retry-generation calls
themselves return) the retry-generation call is made at most once; the
bound comes from the graph's own conditional edges, not from the judge. -/
theorem retry_bound_spec (env : Oracle) (fuel : Nat) (userId query : String)
    (sensors : SensorSnapshot) :
    (initExec userId query sensors).pipeline.retryCount = 0 ∧
    (runExec env fuel (initExec userId query sensors)).pipeline.retryCount ≤ 1 ∧
    ((∀ k, isOk (env.retryResult k) = true) →
      (runExec env fuel (initExec userId query sensors)).retryGenCalls ≤ 1) := by
  refine ⟨rfl, ?_, ?_⟩
  · exact runExec_retryCount_le env fuel _ (by simp [initExec, initialState])
  · intro hok
    have hinv : CallsInv (runExec env fuel (initExec userId query sensors)) :=
      runExec_callsInv env fuel _ hok ⟨fun _ => rfl, fun hnp => absurd (Or.inl rfl) hnp⟩
    have hrc : (runExec env fuel (initExec userId query sensors)).pipeline.retryCount ≤ 1 :=
      runExec_retryCount_le env fuel _ (by simp [initExec, initialState])
    by_cases hp : pre3 (runExec env fuel (initExec userId query sensors))
    · rw [hinv.1 hp]
      exact Nat.zero_le 1
    · exact le_trans (hinv.2 hp) hrc

/-- Claim C2 witness: a run whose judge always scores 50 makes exactly at
most one retry-generation call. -/
theorem retry_bound_spec_witness :
    (runExec envRetryLoop 20 (initExec "farmer_001" "Should I water now?" sensorsW)).retryGenCalls ≤ 1 :=
  (retry_bound_spec envRetryLoop 20 "farmer_001" "Should I water now?" sensorsW).2.2 (fun _ => rfl)

/-- Claim C4: the judge conditional edge routes to the formatter exactly
when the judgement's score is at least 85 (at any retry count), and a run
whose first judge invocation scores at least 85 never enters the retry
node. -/
theorem judge_threshold_spec :
    (∀ j : Judgement, judgeRouter (some j) = Node.responseFormatter ↔ 85 ≤ j.score) ∧
    (∀ (env : Oracle) (fuel : Nat) (userId query : String) (sensors : SensorSnapshot)
        (j : Judgement), env.judgeResult 0 = Except.ok j → 85 ≤ j.score →
      Node.enhancedRetry ∉ (runExec env fuel (initExec userId query sensors)).visited) := by
  constructor
  · intro j
    simp only [judgeRouter]
    split_ifs with h <;> simp [h]
  · intro env fuel userId query sensors j hj hs
    have hinv := runExec_c4Inv env fuel (initExec userId query sensors) j hj hs
      ⟨by simp [initExec], by simp [initExec], fun _ => rfl, fun _ => rfl⟩
    exact hinv.1

/-- Claim C4 witness: a first-pass score of 90 never reaches the retry
node. -/
theorem judge_threshold_spec_witness :
    Node.enhancedRetry ∉
      (runExec envHighScore 20 (initExec "farmer_001" "Should I water now?" sensorsW)).visited :=
  judge_threshold_spec.2 envHighScore 20 "farmer_001" "Should I water now?" sensorsW jHigh
    rfl (by decide)

end Farm
